import Mathlib

/-!
Shallow embedding of the SMART Web Messaging connector
(`SMARTWebMessagingConnector`, src/unnamed/part_001) in Lean 4.

The connector exchanges JSON-like messages between two browsing contexts
(the local `window` and the configured peer `ehrWindow`).  We model:

* JS values (`JSValue`) with JS truthiness, `typeof`-object test and
  property access;
* DOM event-listener registries keyed by event target, with
  add-is-deduplicated / remove-by-identity semantics (`ListenerWorld`);
* the correlation listener installed by `sendMessage` and its effect on a
  stream of inbound `message` events (`sendMessageRun`);
* the inbound dispatch path `handleIncomingMessage`;
* the connection state machine `connect` / `connectWithRetry` under a
  sequential schedule, and the synchronous initiation segment of
  `connect` used by the concurrent-join argument;
* `close` / `cleanup`.
-/

/-- JavaScript-like values carried in `postMessage` payloads. -/
inductive JSValue where
  | undefined
  | null
  | bool (b : Bool)
  | num (n : Int)
  | str (s : String)
  | obj (fields : List (String × JSValue))

namespace JSValue

/-- JS truthiness: `undefined`, `null`, `false`, `0` and `""` are falsy;
every object (including `{}`) is truthy. -/
def truthy : JSValue → Bool
  | .undefined => false
  | .null => false
  | .bool b => b
  | .num n => n != 0
  | .str s => s != ""
  | .obj _ => true

/-- `typeof v === "object"` (true for objects and for `null`). -/
def isObjectType : JSValue → Bool
  | .null => true
  | .obj _ => true
  | _ => false

/-- Property access `v.k`: field lookup on objects, `undefined` otherwise.
(Access on `null`/`undefined` throws in JS; in the dispatch paths modelled
here such an event has no observable state effect, so it collapses to
`undefined` reads that fail the subsequent comparisons.) -/
def getField : JSValue → String → JSValue
  | .obj fields, k =>
    match fields.find? (fun p => p.1 = k) with
    | some p => p.2
    | none => .undefined
  | _, _ => .undefined

/-- `"k" in v`: field presence on objects. -/
def hasField : JSValue → String → Bool
  | .obj fields, k => fields.any (fun p => p.1 = k)
  | _, _ => false

/-- Strict equality `v === s` against a known string `s`: true exactly
when `v` is that string (`===` performs no coercion). -/
def strictEqStr : JSValue → String → Bool
  | .str t, s => t == s
  | _, _ => false

end JSValue

/-- Identity of a browsing context (`window`, `ehrWindow`, ...). -/
abbrev EndpointId := Nat

/-- Identity of a listener function.  Distinct closures (for example the
result of `f.bind(this)` versus `f` itself) have distinct identities. -/
abbrev ListenerId := Nat

/-- The set of `message`-event listener registrations across all event
targets, as (target, listener) pairs. -/
abbrev ListenerWorld := List (EndpointId × ListenerId)

/-- `target.addEventListener("message", l)`: a second registration of the
same listener on the same target is ignored (DOM deduplication). -/
def addListener (w : ListenerWorld) (target : EndpointId) (l : ListenerId) :
    ListenerWorld :=
  if (target, l) ∈ w then w else w ++ [(target, l)]

/-- `target.removeEventListener("message", l)`: removes by identity; a
listener that was never registered on `target` is left alone. -/
def removeListener (w : ListenerWorld) (target : EndpointId) (l : ListenerId) :
    ListenerWorld :=
  w.filter (fun p => p ≠ (target, l))

/-- Whether listener `l` is currently registered on `target`. -/
def isRegistered (w : ListenerWorld) (target : EndpointId) (l : ListenerId) :
    Bool :=
  (target, l) ∈ w

/-- An inbound `message` event: its transport-reported source context and
its `data` payload. -/
structure MessageEvent where
  source : EndpointId
  data : JSValue

/-- State of a JS promise.  The `rejected` constructor exists so that
"never rejects" is a statement about the code, not about the type. -/
inductive PromiseState where
  | pending
  | resolved (v : JSValue)
  | rejected (reason : String)

/-- `resolve(v)`: settles a pending promise; a no-op on a settled one. -/
def promiseResolve (p : PromiseState) (v : JSValue) : PromiseState :=
  match p with
  | .pending => .resolved v
  | _ => p

/-- Whether a promise is in the rejected state. -/
def PromiseState.isRejected : PromiseState → Bool
  | .rejected _ => true
  | _ => false

/-- State of one in-flight `sendMessage` call: the promise it returned and
the listener registrations it can still observe or mutate. -/
structure SendRun where
  promise : PromiseState
  world : ListenerWorld

/-- One firing of the `responseHandler` closure created by `sendMessage`
(src/unnamed/part_001 lines 179-196) on an inbound event delivered to the
local window.  The handler fires only while it is registered on
`localWin` (where `window.addEventListener` put it); it reads only
`event.data`, never `event.source`.  On `responseToMessageId === messageId`
it resolves the promise, then — when `additionalResponseExpected` is
falsy — calls `removeEventListener` on `ehrWin` (exactly as the source
does: the removal targets `this.ehrWindow`, not the local window). -/
def responseHandlerStep (localWin ehrWin : EndpointId) (rhId : ListenerId)
    (messageId : String) (st : SendRun) (ev : MessageEvent) : SendRun :=
  if isRegistered st.world localWin rhId then
    let response := ev.data
    if (response.getField "responseToMessageId").strictEqStr messageId then
      let st1 : SendRun := { st with promise := promiseResolve st.promise response }
      if (response.getField "additionalResponseExpected").truthy then
        st1
      else
        { st1 with world := removeListener st1.world ehrWin rhId }
    else
      st
  else
    st

/-- The synchronous part of `sendMessage` (lines 166-204): register the
`responseHandler` on the local window, then run the handler over the
inbound events subsequently delivered to the local window.  The promise
executor only ever calls `resolve`. -/
def sendMessageRun (localWin ehrWin : EndpointId) (rhId : ListenerId)
    (messageId : String) (world0 : ListenerWorld) (events : List MessageEvent) :
    SendRun :=
  events.foldl (responseHandlerStep localWin ehrWin rhId messageId)
    { promise := .pending, world := addListener world0 localWin rhId }

/-- An inbound event matches a pending request when its
`responseToMessageId` strictly equals that request's `messageId`. -/
def matchesRequest (messageId : String) (ev : MessageEvent) : Bool :=
  (ev.data.getField "responseToMessageId").strictEqStr messageId

/-- Connection status (`Status`, src/unnamed/part_001 line 63). -/
inductive Status where
  | connecting
  | connected
  | disconnected
  | error
deriving DecidableEq, Repr

/-- The connection-relevant state of a connector: the `_status` field,
the `_pendingHandshake` field (abstracted to the identity of the
handshake promise it holds, `none` when null), and a counter supplying
fresh handshake identities. -/
structure ConnState where
  status : Status
  pending : Option Nat
  nextId : Nat
deriving DecidableEq, Repr

/-- State of a connector right after construction (lines 87-92):
`_status = "disconnected"`, `_pendingHandshake = null`. -/
def initialConnState : ConnState :=
  { status := .disconnected, pending := none, nextId := 0 }

/-- The synchronous initiation segment of `connect()` (lines 319-339, up
to the first suspension): if `status == "connecting"` and a pending
handshake exists, the call performs no state change and awaits that same
pending handshake; otherwise it sets status to `connecting` and stores a
fresh handshake in `_pendingHandshake`.  Returns the state after the
synchronous segment, the identity of the handshake this call awaits, and
whether a new handshake was started. -/
def connectInit (st : ConnState) : ConnState × Nat × Bool :=
  match st.status, st.pending with
  | .connecting, some h => (st, h, false)
  | _, _ =>
    ({ status := .connecting, pending := some st.nextId, nextId := st.nextId + 1 },
     st.nextId, true)

/-- Settlement of the handshake promise built in `connect()` (the
`.then`/`.catch` chain, lines 329-337), given whether the underlying
`withTimeout(sendMessage("status.handshake"))` succeeded.  On success the
status is set to `connected` and the promise fulfils.  On failure the
`catch` callback first checks `this.status !== "connecting"`; if the
status moved away concurrently it returns without rethrowing (the
promise fulfils), otherwise it sets `error` and rethrows (the promise
rejects).  The returned `Bool` is whether the promise fulfils. -/
def handshakeSettle (ok : Bool) (st : ConnState) : ConnState × Bool :=
  if ok then
    ({ st with status := .connected }, true)
  else if st.status = .connecting then
    ({ st with status := .error }, false)
  else
    (st, true)

/-- `connect()` under a sequential schedule (no other continuation runs
between its initiation and the settlement of its handshake).  `outcome h`
says whether handshake `h` succeeds.  A joined call (`connectInit`
reports no new handshake) awaits the stored handshake, whose result is
`outcome h`.  Returns the final state and whether the call fulfils. -/
def connectSeq (outcome : Nat → Bool) (st : ConnState) : ConnState × Bool :=
  let r := connectInit st
  if r.2.2 then handshakeSettle (outcome r.2.1) r.1
  else (r.1, outcome r.2.1)

/-- The `while (retries < maxRetries)` loop of `connectWithRetry`
(lines 341-352), by recursion on the remaining attempts.  Returns the
final state, whether some attempt fulfilled, and the number of `connect()`
attempts performed. -/
def connectWithRetryLoop (outcome : Nat → Bool) :
    Nat → ConnState → ConnState × Bool × Nat
  | 0, st => (st, false, 0)
  | n + 1, st =>
    let a := connectSeq outcome st
    if a.2 then (a.1, true, 1)
    else
      let rest := connectWithRetryLoop outcome n a.1
      (rest.1, rest.2.1, rest.2.2 + 1)

/-- Result of a `connectWithRetry()` call. -/
structure RetryResult where
  state : ConnState
  result : Except String Unit
  attempts : Nat
deriving Repr

/-- `connectWithRetry()` (lines 341-356): run the loop; if no attempt
fulfilled, throw the retries-exhausted error naming the configured
`maxRetries`. -/
def connectWithRetry (outcome : Nat → Bool) (maxRetries : Nat)
    (st : ConnState) : RetryResult :=
  let r := connectWithRetryLoop outcome maxRetries st
  { state := r.1,
    result :=
      if r.2.1 then .ok ()
      else .error ("Failed to establish connection after " ++
        toString maxRetries ++ " retries"),
    attempts := r.2.2 }

/-- Result of invoking (and awaiting) a registered message handler. -/
inductive HandlerResult where
  | ret (v : JSValue)
  | thrown (e : String)

/-- The `_handlers` map: message type → handler.  `on` only ever inserts
string keys, so the table is string-keyed. -/
abbrev HandlerTable := List (String × (JSValue → HandlerResult))

/-- `this._handlers.get(messageType)` where `messageType` is the raw
`message.messageType` value: `Map.get` uses SameValueZero on the actual
value, and every key inserted by `on` is a string, so a non-string
`messageType` finds no handler. -/
def handlerLookup (handlers : HandlerTable) :
    JSValue → Option (JSValue → HandlerResult)
  | .str s => (handlers.find? (fun p => p.1 = s)).map (fun p => p.2)
  | _ => none

/-- `getHandlerCount()` (lines 315-317). -/
def getHandlerCount (handlers : HandlerTable) : Nat :=
  handlers.length

/-- Observable outcome of one run of `handleIncomingMessage` on one
inbound event: the message the handler was invoked with (if any), the
response posted back (if any), and the error caught by the surrounding
`try`/`catch` (if any).  No other constructor exists for an error, so an
error never escapes the listener in the model, mirroring the source's
top-level `catch`. -/
structure DispatchResult where
  invoked : Option JSValue
  posted : Option JSValue
  caught : Option String

/-- The `ResponseMessage` synthesized for a handler result
(lines 251-256), field for field in source order. -/
def buildHandlerResponse (freshId : String) (message result : JSValue) :
    JSValue :=
  .obj [("messageId", .str freshId),
        ("responseToMessageId", message.getField "messageId"),
        ("payload", result),
        ("additionalResponseExpected", .bool false)]

/-- `handleIncomingMessage` (src/unnamed/part_001 lines 224-268).
Control flow in source order: drop events whose source is `ehrWindow`;
drop non-object data; drop a `messagingHandle` differing from this
connection's `handle`; drop data without a `messageType` field; look up
the handler; invoke and await it; post a synthesized response when the
result is a non-null object; catch and record any handler error.
`freshId` stands for the `generateMessageId()` call used for the
response. -/
def handleIncomingMessage (ehrWin : EndpointId) (handle : String)
    (handlers : HandlerTable) (freshId : String) (ev : MessageEvent) :
    DispatchResult :=
  if ev.source = ehrWin then ⟨none, none, none⟩
  else
    let message := ev.data
    if !message.truthy || !message.isObjectType then ⟨none, none, none⟩
    else if !(message.getField "messagingHandle").strictEqStr handle then
      ⟨none, none, none⟩
    else if !message.hasField "messageType" then ⟨none, none, none⟩
    else
      match handlerLookup handlers (message.getField "messageType") with
      | some handler =>
        match handler message with
        | .ret result =>
          if result.truthy && result.isObjectType then
            ⟨some message, some (buildHandlerResponse freshId message result),
             none⟩
          else
            ⟨some message, none, none⟩
        | .thrown e => ⟨some message, none, some e⟩
      | none => ⟨none, none, none⟩

/-- The construction-time inbound listener applied to a stream of
events (each paired with the fresh response id available for it).  The
listener instance registered by `setupMessageListener` stays in place
across events; each event is dispatched independently. -/
def dispatchRun (ehrWin : EndpointId) (handle : String)
    (handlers : HandlerTable) (events : List (String × MessageEvent)) :
    List DispatchResult :=
  events.map (fun p => handleIncomingMessage ehrWin handle handlers p.1 p.2)

/-- The connector state that `close()`/`cleanup()` touch: the `_status`
field, the `_listeners.statusChange` set, the `_handlers` map, and the
transport-wide `message`-listener registrations. -/
structure ConnectorState where
  status : Status
  statusListeners : List ListenerId
  handlers : HandlerTable
  world : ListenerWorld

/-- `setupMessageListener` (lines 217-219): registers
`this.handleIncomingMessage.bind(this)` — a fresh closure with its own
identity `boundId` — on the local window. -/
def setupMessageListener (localWin : EndpointId) (boundId : ListenerId)
    (w : ListenerWorld) : ListenerWorld :=
  addListener w localWin boundId

/-- `cleanup()` (lines 376-380): calls
`window.removeEventListener("message", this.handleIncomingMessage)` —
passing the unbound method, identity `rawId` — then clears the status
listeners and the handler map.  The `_status` field is not touched. -/
def cleanup (localWin : EndpointId) (rawId : ListenerId)
    (st : ConnectorState) : ConnectorState :=
  { st with
    world := removeListener st.world localWin rawId,
    statusListeners := [],
    handlers := [] }

/-- Result of `close()`: the state after teardown and the `ui.close`
request posted to the peer. -/
structure CloseResult where
  state : ConnectorState
  postedCloseMsg : JSValue

/-- `close()` (lines 368-371): calls `sendMessage("ui.close")` without
awaiting it — its synchronous part builds the request (field order as in
the source literal), registers a fresh `responseHandler` (identity
`rhId`) on the local window and posts the request — then calls
`cleanup()`. -/
def close (localWin : EndpointId) (handle : String) (closeMsgId : String)
    (rhId rawId : ListenerId) (st : ConnectorState) : CloseResult :=
  let msg : JSValue :=
    .obj [("messageType", .str "ui.close"),
          ("payload", .obj []),
          ("messageId", .str closeMsgId),
          ("messagingHandle", .str handle)]
  let st1 : ConnectorState :=
    { st with world := addListener st.world localWin rhId }
  { state := cleanup localWin rawId st1, postedCloseMsg := msg }

/-- The connector fields that `sendMessage`/`postMessage` can reach:
`_status`, `params.handle`, `params.origin` and `ehrWindow`. -/
structure Connector where
  status : Status
  handle : String
  origin : Option String
  ehrWin : EndpointId

/-- What the synchronous part of one `sendMessage` call produces: the
request object it built, where `postMessage` delivered it and under
which origin restriction, and the listener registrations afterwards. -/
structure SendInitResult where
  request : JSValue
  postedTo : EndpointId
  postedOrigin : Option String
  world : ListenerWorld

/-- The origin restriction `postMessage` uses (lines 206-212):
`if (this.params.origin)` is a truthiness test, so a null or empty
origin posts without a restriction. -/
def postMessageOrigin (origin : Option String) : Option String :=
  match origin with
  | some o => if o == "" then none else some o
  | none => none

/-- The synchronous segment of `sendMessage(messageType, payload)`
(lines 166-204): generate `messageId` (passed in as `messageId`), stamp
the connection's handle, build the request literal in source field
order, register the `responseHandler` on the local window, and post the
request to `ehrWindow`.  No part of it reads `_status`. -/
def sendMessageInit (c : Connector) (localWin : EndpointId)
    (messageId : String) (rhId : ListenerId) (messageType : String)
    (payload : JSValue) (w : ListenerWorld) : SendInitResult :=
  let message : JSValue :=
    .obj [("messageType", .str messageType),
          ("payload", payload),
          ("messageId", .str messageId),
          ("messagingHandle", .str c.handle)]
  { request := message,
    postedTo := c.ehrWin,
    postedOrigin := postMessageOrigin c.origin,
    world := addListener w localWin rhId }

/-! ## Connection state machine: helper lemmas -/

/-- When the join condition fails (status is not `connecting`, or no
pending handshake is stored), `connect()` starts a fresh handshake. -/
theorem connectInit_fresh (st : ConnState)
    (hs : st.status ≠ Status.connecting ∨ st.pending = none) :
    connectInit st =
      ({ status := .connecting, pending := some st.nextId,
         nextId := st.nextId + 1 }, st.nextId, true) := by
  rcases st with ⟨s, p, n⟩
  cases s <;> cases p <;> simp_all [connectInit]

/-- When status is `connecting` and a pending handshake exists,
`connect()` performs no state change and awaits that handshake. -/
theorem connectInit_join (st : ConnState) (h : Nat)
    (hs : st.status = Status.connecting) (hp : st.pending = some h) :
    connectInit st = (st, h, false) := by
  rcases st with ⟨s, p, n⟩
  simp only at hs hp
  subst hs
  subst hp
  rfl

/-- One sequential `connect()` whose handshake fails: the state moves to
`error` with the failed handshake still stored, and the call rejects. -/
theorem connectSeq_fails (outcome : Nat → Bool)
    (hfail : ∀ h, outcome h = false) (st : ConnState)
    (hs : st.status ≠ Status.connecting) :
    connectSeq outcome st =
      ({ status := Status.error, pending := some st.nextId,
         nextId := st.nextId + 1 }, false) := by
  simp only [connectSeq, connectInit_fresh st (Or.inl hs)]
  simp [handshakeSettle, hfail]

/-- The retry loop under an always-failing handshake: no attempt
fulfils, exactly `n` attempts run, and after at least one attempt the
status is `error`. -/
theorem connectWithRetryLoop_exhausts (outcome : Nat → Bool)
    (hfail : ∀ h, outcome h = false) :
    ∀ (n : Nat) (st : ConnState), st.status ≠ Status.connecting →
      (connectWithRetryLoop outcome n st).2.1 = false ∧
      (connectWithRetryLoop outcome n st).2.2 = n ∧
      ((connectWithRetryLoop outcome n st).1 = st ∨
        (connectWithRetryLoop outcome n st).1.status = Status.error) ∧
      (1 ≤ n → (connectWithRetryLoop outcome n st).1.status = Status.error) := by
  intro n
  induction n with
  | zero =>
    intro st hs
    exact ⟨rfl, rfl, Or.inl rfl, fun h => absurd h (by decide)⟩
  | succ n ih =>
    intro st hs
    have hstep := connectSeq_fails outcome hfail st hs
    obtain ⟨h1, h2, h3, _⟩ :=
      ih ⟨Status.error, some st.nextId, st.nextId + 1⟩ (by intro h; exact Status.noConfusion h)
    simp only [connectWithRetryLoop, hstep]
    refine ⟨by simpa using h1, by simpa using h2, ?_, fun _ => ?_⟩
    · rcases h3 with h3 | h3
      · exact Or.inr (by simp [h3])
      · exact Or.inr (by simpa using h3)
    · rcases h3 with h3 | h3
      · simp [h3]
      · simpa using h3

/-- C2: with a handshake that always fails, `connectWithRetry` with
`maxRetries = N ≥ 1` performs exactly `N` sequential `connect()`
attempts (each individual failure swallowed by the loop), rejects with
the retries-exhausted error naming the configured `maxRetries`, and
leaves the status `error`.  The `N ≥ 1` proviso is forced: with
`maxRetries = 0` no attempt runs and the status is left unchanged. -/
theorem connectWithRetry_exhaustion (outcome : Nat → Bool)
    (hfail : ∀ h, outcome h = false) (n : Nat) (hn : 1 ≤ n)
    (st : ConnState) (hs : st.status ≠ Status.connecting) :
    (connectWithRetry outcome n st).attempts = n ∧
    (connectWithRetry outcome n st).result =
      Except.error
        ("Failed to establish connection after " ++ toString n ++ " retries") ∧
    (connectWithRetry outcome n st).state.status = Status.error := by
  obtain ⟨h1, h2, _, h4⟩ := connectWithRetryLoop_exhausts outcome hfail n st hs
  simp only [connectWithRetry]
  exact ⟨h2, by simp [h1], h4 hn⟩

/-- Witness for C2 at `maxRetries = 3` from the freshly constructed
state. -/
theorem connectWithRetry_exhaustion_witness :
    (connectWithRetry (fun _ => false) 3 initialConnState).attempts = 3 ∧
    (connectWithRetry (fun _ => false) 3 initialConnState).result =
      Except.error
        ("Failed to establish connection after " ++ toString 3 ++ " retries") ∧
    (connectWithRetry (fun _ => false) 3 initialConnState).state.status =
      Status.error :=
  connectWithRetry_exhaustion (fun _ => false) (fun _ => rfl) 3 (by decide)
    initialConnState (by decide)

/-- Counterexample to C2 as stated: with `maxRetries = 0` the call
rejects with the retries-exhausted error (naming 0) after zero attempts,
but the status stays `disconnected`, not `error`. -/
theorem connectWithRetry_zero_maxRetries :
    (connectWithRetry (fun _ => false) 0 initialConnState).attempts = 0 ∧
    (connectWithRetry (fun _ => false) 0 initialConnState).result =
      Except.error "Failed to establish connection after 0 retries" ∧
    (connectWithRetry (fun _ => false) 0 initialConnState).state.status =
      Status.disconnected ∧
    Status.disconnected ≠ Status.error :=
  ⟨rfl, rfl, rfl, by decide⟩

/-- C3: a `connect()` call from a quiescent state starts exactly one new
handshake, leaves the connector `connecting` with that handshake
pending, and a second `connect()` call arriving in that window performs
no state change, starts no new handshake, and awaits the very same
pending handshake — so both calls settle together from one underlying
handshake. -/
theorem connect_idempotent_join (st0 : ConnState)
    (hne : st0.status ≠ Status.connecting ∨ st0.pending = none) :
    (connectInit st0).2.2 = true ∧
    (connectInit st0).1.status = Status.connecting ∧
    (connectInit st0).1.pending = some (connectInit st0).2.1 ∧
    connectInit (connectInit st0).1 =
      ((connectInit st0).1, (connectInit st0).2.1, false) := by
  rw [connectInit_fresh st0 hne]
  exact ⟨rfl, rfl, rfl, connectInit_join _ _ rfl rfl⟩

/-- Witness for C3 from the freshly constructed state. -/
theorem connect_idempotent_join_witness :
    (connectInit initialConnState).2.2 = true ∧
    (connectInit initialConnState).1.status = Status.connecting ∧
    (connectInit initialConnState).1.pending =
      some (connectInit initialConnState).2.1 ∧
    connectInit (connectInit initialConnState).1 =
      ((connectInit initialConnState).1, (connectInit initialConnState).2.1,
       false) :=
  connect_idempotent_join initialConnState (Or.inl (by decide))

/-! ## Correlation listener: helper lemmas -/

/-- Calling `resolve` never moves a promise into (or out of) the
rejected state. -/
theorem promiseResolve_isRejected (p : PromiseState) (v : JSValue) :
    (promiseResolve p v).isRejected = p.isRejected := by
  cases p <;> rfl

/-- One `responseHandler` firing preserves whether the promise is
rejected: the handler only ever calls `resolve`. -/
theorem responseHandlerStep_isRejected (localWin ehrWin : EndpointId)
    (rhId : ListenerId) (mid : String) (st : SendRun) (ev : MessageEvent) :
    (responseHandlerStep localWin ehrWin rhId mid st ev).promise.isRejected =
      st.promise.isRejected := by
  simp only [responseHandlerStep]
  split
  · split
    · split
      · simp [promiseResolve_isRejected]
      · simp [promiseResolve_isRejected]
    · rfl
  · rfl

/-- A `responseHandler` firing on a non-matching event is a complete
no-op. -/
theorem responseHandlerStep_no_match (localWin ehrWin : EndpointId)
    (rhId : ListenerId) (mid : String) (st : SendRun) (ev : MessageEvent)
    (h : matchesRequest mid ev = false) :
    responseHandlerStep localWin ehrWin rhId mid st ev = st := by
  simp only [matchesRequest] at h
  simp only [responseHandlerStep]
  split
  · simp [h]
  · rfl

/-- Folding `responseHandler` firings over any event list preserves
whether the promise is rejected. -/
theorem sendRun_foldl_isRejected (localWin ehrWin : EndpointId)
    (rhId : ListenerId) (mid : String) :
    ∀ (events : List MessageEvent) (st : SendRun),
      (events.foldl (responseHandlerStep localWin ehrWin rhId mid)
        st).promise.isRejected = st.promise.isRejected := by
  intro events
  induction events with
  | nil => intro st; rfl
  | cons e es ih =>
    intro st
    rw [List.foldl_cons, ih, responseHandlerStep_isRejected]

/-- C9: the promise returned by `sendMessage` never rejects on its own —
over any inbound event stream it is pending or resolved, never
rejected — and when no inbound event matches the request's `messageId`
it stays pending forever. -/
theorem sendMessage_never_rejects (localWin ehrWin : EndpointId)
    (rhId : ListenerId) (messageId : String) (world0 : ListenerWorld)
    (events events2 : List MessageEvent)
    (hnomatch : ∀ ev ∈ events, matchesRequest messageId ev = false) :
    (sendMessageRun localWin ehrWin rhId messageId world0
      events2).promise.isRejected = false ∧
    (sendMessageRun localWin ehrWin rhId messageId world0 events).promise =
      PromiseState.pending := by
  constructor
  · rw [sendMessageRun, sendRun_foldl_isRejected]
    rfl
  · rw [sendMessageRun]
    have hid : ∀ (l : List MessageEvent) (st : SendRun),
        (∀ ev ∈ l, matchesRequest messageId ev = false) →
        l.foldl (responseHandlerStep localWin ehrWin rhId messageId) st = st := by
      intro l
      induction l with
      | nil => intro st _; rfl
      | cons e es ih =>
        intro st hl
        rw [List.foldl_cons,
          responseHandlerStep_no_match localWin ehrWin rhId messageId st e
            (hl e (by simp)),
          ih st (fun ev hev => hl ev (by simp [hev]))]
    rw [hid events _ hnomatch]

/-- Witness for C9: a non-matching stream leaves the promise pending; a
matching stream resolves it, which is still not a rejection. -/
theorem sendMessage_never_rejects_witness :
    (sendMessageRun 0 1 5 "m1" []
      [⟨1, JSValue.obj [("responseToMessageId", JSValue.str "m1")]⟩]
      ).promise.isRejected = false ∧
    (sendMessageRun 0 1 5 "m1" []
      [⟨1, JSValue.obj [("responseToMessageId", JSValue.str "zz")]⟩]
      ).promise = PromiseState.pending :=
  sendMessage_never_rejects 0 1 5 "m1" []
    [⟨1, JSValue.obj [("responseToMessageId", JSValue.str "zz")]⟩]
    [⟨1, JSValue.obj [("responseToMessageId", JSValue.str "m1")]⟩]
    (by decide)

/-- C1 (code evaluated at the failing input): with the peer endpoint (1)
distinct from the local window (0), a matching terminal response
(`additionalResponseExpected` absent, hence falsy) resolves the promise,
but the `responseHandler` — registered on the local window — is still
registered afterwards: the deregistration call targeted `ehrWindow`,
where the listener never was. -/
theorem sendMessage_listener_not_deregistered :
    (sendMessageRun 0 1 5 "m1" []
      [⟨1, JSValue.obj [("messageId", JSValue.str "r1"),
        ("responseToMessageId", JSValue.str "m1"),
        ("payload", JSValue.obj [])]⟩]).promise =
      PromiseState.resolved
        (JSValue.obj [("messageId", JSValue.str "r1"),
          ("responseToMessageId", JSValue.str "m1"),
          ("payload", JSValue.obj [])]) ∧
    (sendMessageRun 0 1 5 "m1" []
      [⟨1, JSValue.obj [("messageId", JSValue.str "r1"),
        ("responseToMessageId", JSValue.str "m1"),
        ("payload", JSValue.obj [])]⟩]).world = [(0, 5)] ∧
    isRegistered (sendMessageRun 0 1 5 "m1" []
      [⟨1, JSValue.obj [("messageId", JSValue.str "r1"),
        ("responseToMessageId", JSValue.str "m1"),
        ("payload", JSValue.obj [])]⟩]).world 0 5 = true :=
  ⟨rfl, rfl, rfl⟩

/-- Counterexample to C5 as stated: an inbound message whose
transport-reported source is the connector's own peer endpoint
(`ehrWindow` = 1) and whose `responseToMessageId` matches a pending
request is processed by that request's correlation listener — it
resolves the promise — because `responseHandler` never inspects
`event.source`. -/
theorem selfSourced_response_resolves_request :
    (sendMessageRun 2 1 6 "q1" []
      [⟨1, JSValue.obj [("responseToMessageId", JSValue.str "q1"),
        ("additionalResponseExpected", JSValue.bool true),
        ("payload", JSValue.obj [("a", JSValue.num 1)])]⟩]).promise =
      PromiseState.resolved
        (JSValue.obj [("responseToMessageId", JSValue.str "q1"),
          ("additionalResponseExpected", JSValue.bool true),
          ("payload", JSValue.obj [("a", JSValue.num 1)])]) :=
  rfl

/-- C5 (amended): the self-source exclusion applies to handler dispatch
only — `handleIncomingMessage` drops any event whose source equals
`ehrWindow` before invoking a handler or posting a response — while the
`sendMessage` correlation listener never reads the event source, so its
behaviour on any event is independent of that source. -/
theorem self_exclusion_dispatch_only (ehrWin localWin : EndpointId)
    (handle : String) (handlers : HandlerTable) (freshId : String)
    (ev : MessageEvent) (rhId : ListenerId) (mid : String) (st : SendRun)
    (s s' : EndpointId) (d : JSValue)
    (hsrc : ev.source = ehrWin) :
    (handleIncomingMessage ehrWin handle handlers freshId ev).invoked = none ∧
    (handleIncomingMessage ehrWin handle handlers freshId ev).posted = none ∧
    responseHandlerStep localWin ehrWin rhId mid st ⟨s, d⟩ =
      responseHandlerStep localWin ehrWin rhId mid st ⟨s', d⟩ := by
  refine ⟨?_, ?_, rfl⟩ <;> simp [handleIncomingMessage, hsrc]

/-- Witness for C5 (amended) at concrete inputs. -/
theorem self_exclusion_dispatch_only_witness :
    (handleIncomingMessage 1 "h1" [] "f9" ⟨1, JSValue.obj []⟩).invoked = none ∧
    (handleIncomingMessage 1 "h1" [] "f9" ⟨1, JSValue.obj []⟩).posted = none ∧
    responseHandlerStep 2 1 6 "q2" ⟨PromiseState.pending, []⟩ ⟨1, JSValue.null⟩ =
      responseHandlerStep 2 1 6 "q2" ⟨PromiseState.pending, []⟩
        ⟨3, JSValue.null⟩ :=
  self_exclusion_dispatch_only 1 2 "h1" [] "f9" ⟨1, JSValue.obj []⟩ 6 "q2"
    ⟨PromiseState.pending, []⟩ 1 3 JSValue.null rfl

/-- C4: an inbound request that passes the dispatch filter and has a
registered handler gets the handler invoked with the full inbound
message; when the (awaited) result is a non-null object, exactly one
response is posted, carrying the fresh `messageId`, a
`responseToMessageId` equal to the inbound `messageId`,
`additionalResponseExpected: false` and the result as payload; when the
result is not a non-null object, nothing is posted. -/
theorem dispatch_handler_round_trip (ehrWin : EndpointId) (handle : String)
    (handlers : HandlerTable) (freshId : String) (ev : MessageEvent)
    (handler : JSValue → HandlerResult) (result : JSValue)
    (hsrc : ev.source ≠ ehrWin)
    (htruthy : ev.data.truthy = true)
    (hobj : ev.data.isObjectType = true)
    (hhandle : (ev.data.getField "messagingHandle").strictEqStr handle = true)
    (htype : ev.data.hasField "messageType" = true)
    (hlookup : handlerLookup handlers (ev.data.getField "messageType") =
      some handler)
    (hresult : handler ev.data = HandlerResult.ret result) :
    (handleIncomingMessage ehrWin handle handlers freshId ev).invoked =
      some ev.data ∧
    ((result.truthy && result.isObjectType) = true →
      (handleIncomingMessage ehrWin handle handlers freshId ev).posted =
        some (JSValue.obj
          [("messageId", JSValue.str freshId),
           ("responseToMessageId", ev.data.getField "messageId"),
           ("payload", result),
           ("additionalResponseExpected", JSValue.bool false)])) ∧
    ((result.truthy && result.isObjectType) = false →
      (handleIncomingMessage ehrWin handle handlers freshId ev).posted =
        none) := by
  have hmain : handleIncomingMessage ehrWin handle handlers freshId ev =
      if (result.truthy && result.isObjectType) = true then
        ⟨some ev.data, some (buildHandlerResponse freshId ev.data result), none⟩
      else ⟨some ev.data, none, none⟩ := by
    simp only [handleIncomingMessage]
    rw [if_neg hsrc]
    simp [htruthy, hobj, hhandle, htype, hlookup, hresult]
  refine ⟨?_, fun hro => ?_, fun hro => ?_⟩
  · rw [hmain]
    split <;> rfl
  · rw [hmain, if_pos hro]
    simp [buildHandlerResponse]
  · rw [hmain, if_neg (by simp [hro])]

/-- Witness for C4: the P7 round-trip — a `form.persist` handler
returning `{ok: true}`, a request with `messageId = "m1"`, and the one
resulting response. -/
theorem dispatch_handler_round_trip_witness :
    (handleIncomingMessage 1 "h1"
      [("form.persist",
        fun _ => HandlerResult.ret (JSValue.obj [("ok", JSValue.bool true)]))]
      "f1"
      ⟨2, JSValue.obj [("messagingHandle", JSValue.str "h1"),
        ("messageId", JSValue.str "m1"),
        ("messageType", JSValue.str "form.persist"),
        ("payload", JSValue.obj [])]⟩).invoked =
      some (JSValue.obj [("messagingHandle", JSValue.str "h1"),
        ("messageId", JSValue.str "m1"),
        ("messageType", JSValue.str "form.persist"),
        ("payload", JSValue.obj [])]) ∧
    (((JSValue.obj [("ok", JSValue.bool true)]).truthy &&
        (JSValue.obj [("ok", JSValue.bool true)]).isObjectType) = true →
      (handleIncomingMessage 1 "h1"
        [("form.persist",
          fun _ => HandlerResult.ret (JSValue.obj [("ok", JSValue.bool true)]))]
        "f1"
        ⟨2, JSValue.obj [("messagingHandle", JSValue.str "h1"),
          ("messageId", JSValue.str "m1"),
          ("messageType", JSValue.str "form.persist"),
          ("payload", JSValue.obj [])]⟩).posted =
        some (JSValue.obj
          [("messageId", JSValue.str "f1"),
           ("responseToMessageId",
             (JSValue.obj [("messagingHandle", JSValue.str "h1"),
               ("messageId", JSValue.str "m1"),
               ("messageType", JSValue.str "form.persist"),
               ("payload", JSValue.obj [])]).getField "messageId"),
           ("payload", JSValue.obj [("ok", JSValue.bool true)]),
           ("additionalResponseExpected", JSValue.bool false)])) ∧
    (((JSValue.obj [("ok", JSValue.bool true)]).truthy &&
        (JSValue.obj [("ok", JSValue.bool true)]).isObjectType) = false →
      (handleIncomingMessage 1 "h1"
        [("form.persist",
          fun _ => HandlerResult.ret (JSValue.obj [("ok", JSValue.bool true)]))]
        "f1"
        ⟨2, JSValue.obj [("messagingHandle", JSValue.str "h1"),
          ("messageId", JSValue.str "m1"),
          ("messageType", JSValue.str "form.persist"),
          ("payload", JSValue.obj [])]⟩).posted = none) :=
  dispatch_handler_round_trip 1 "h1"
    [("form.persist",
      fun _ => HandlerResult.ret (JSValue.obj [("ok", JSValue.bool true)]))]
    "f1"
    ⟨2, JSValue.obj [("messagingHandle", JSValue.str "h1"),
      ("messageId", JSValue.str "m1"),
      ("messageType", JSValue.str "form.persist"),
      ("payload", JSValue.obj [])]⟩
    (fun _ => HandlerResult.ret (JSValue.obj [("ok", JSValue.bool true)]))
    (JSValue.obj [("ok", JSValue.bool true)])
    (by decide) rfl rfl rfl rfl rfl rfl

/-- Any event failing one of the structural filters — data not a truthy
object, `messagingHandle` differing from this connection's handle, or no
`messageType` field — is rejected silently: no handler runs and nothing
is posted (whatever the event source is). -/
theorem handleIncomingMessage_filtered (ehrWin : EndpointId) (handle : String)
    (handlers : HandlerTable) (freshId : String) (ev : MessageEvent)
    (hbad : ev.data.truthy = false ∨ ev.data.isObjectType = false ∨
      (ev.data.getField "messagingHandle").strictEqStr handle = false ∨
      ev.data.hasField "messageType" = false) :
    (handleIncomingMessage ehrWin handle handlers freshId ev).invoked = none ∧
    (handleIncomingMessage ehrWin handle handlers freshId ev).posted = none := by
  simp only [handleIncomingMessage]
  by_cases hs : ev.source = ehrWin
  · simp [hs]
  · rw [if_neg hs]
    rcases hbad with hb | hb | hb | hb <;> simp [hb]

/-- C7: a non-self-sourced inbound message that is not an object, or
whose `messagingHandle` differs from this connection's handle, or that
has no `messageType` field, is rejected silently — no handler invoked,
nothing posted; in particular a connector with handle `h1` never
dispatches a request stamped with a different handle `h2`, so two
connectors with different handles sharing one transport never dispatch
each other's requests. -/
theorem dispatch_silent_rejection (ehrWin : EndpointId) (h1 h2 : String)
    (handlers : HandlerTable) (freshId : String) (ev ev2 : MessageEvent)
    (_hsrc : ev.source ≠ ehrWin)
    (hbad : ev.data.truthy = false ∨ ev.data.isObjectType = false ∨
      (ev.data.getField "messagingHandle").strictEqStr h1 = false ∨
      ev.data.hasField "messageType" = false)
    (_hsrc2 : ev2.source ≠ ehrWin)
    (hstamp : ev2.data.getField "messagingHandle" = JSValue.str h2)
    (hne : h1 ≠ h2) :
    (handleIncomingMessage ehrWin h1 handlers freshId ev).invoked = none ∧
    (handleIncomingMessage ehrWin h1 handlers freshId ev).posted = none ∧
    (handleIncomingMessage ehrWin h1 handlers freshId ev2).invoked = none ∧
    (handleIncomingMessage ehrWin h1 handlers freshId ev2).posted = none := by
  obtain ⟨ha1, ha2⟩ :=
    handleIncomingMessage_filtered ehrWin h1 handlers freshId ev hbad
  have hb : (ev2.data.getField "messagingHandle").strictEqStr h1 = false := by
    rw [hstamp]
    simp [JSValue.strictEqStr]
    exact fun hc => hne hc.symm
  obtain ⟨hb1, hb2⟩ := handleIncomingMessage_filtered ehrWin h1 handlers freshId
    ev2 (Or.inr (Or.inr (Or.inl hb)))
  exact ⟨ha1, ha2, hb1, hb2⟩

/-- Witness for C7: a connector with handle `h1` drops a message without
`messageType` and a message stamped for handle `h2`. -/
theorem dispatch_silent_rejection_witness :
    (handleIncomingMessage 1 "h1" [] "f3"
      ⟨2, JSValue.obj [("messagingHandle", JSValue.str "h1")]⟩).invoked =
      none ∧
    (handleIncomingMessage 1 "h1" [] "f3"
      ⟨2, JSValue.obj [("messagingHandle", JSValue.str "h1")]⟩).posted =
      none ∧
    (handleIncomingMessage 1 "h1" [] "f3"
      ⟨2, JSValue.obj [("messagingHandle", JSValue.str "h2"),
        ("messageId", JSValue.str "m7"),
        ("messageType", JSValue.str "form.persist"),
        ("payload", JSValue.obj [])]⟩).invoked = none ∧
    (handleIncomingMessage 1 "h1" [] "f3"
      ⟨2, JSValue.obj [("messagingHandle", JSValue.str "h2"),
        ("messageId", JSValue.str "m7"),
        ("messageType", JSValue.str "form.persist"),
        ("payload", JSValue.obj [])]⟩).posted = none :=
  dispatch_silent_rejection 1 "h1" "h2" [] "f3"
    ⟨2, JSValue.obj [("messagingHandle", JSValue.str "h1")]⟩
    ⟨2, JSValue.obj [("messagingHandle", JSValue.str "h2"),
      ("messageId", JSValue.str "m7"),
      ("messageType", JSValue.str "form.persist"),
      ("payload", JSValue.obj [])]⟩
    (by decide)
    (Or.inr (Or.inr (Or.inr rfl)))
    (by decide) rfl (by decide)

/-- C8: when a registered handler throws, the error is caught inside the
dispatch path — the listener records it, posts nothing for that message,
and never propagates it — and every other inbound message in the stream
is dispatched exactly as it would have been on its own. -/
theorem handler_error_contained (ehrWin : EndpointId) (handle : String)
    (handlers : HandlerTable) (freshId : String) (ev : MessageEvent)
    (handler : JSValue → HandlerResult) (e : String)
    (hsrc : ev.source ≠ ehrWin)
    (htruthy : ev.data.truthy = true)
    (hobj : ev.data.isObjectType = true)
    (hhandle : (ev.data.getField "messagingHandle").strictEqStr handle = true)
    (htype : ev.data.hasField "messageType" = true)
    (hlookup : handlerLookup handlers (ev.data.getField "messageType") =
      some handler)
    (hthrow : handler ev.data = HandlerResult.thrown e)
    (pre post : List (String × MessageEvent)) :
    handleIncomingMessage ehrWin handle handlers freshId ev =
      ⟨some ev.data, none, some e⟩ ∧
    dispatchRun ehrWin handle handlers (pre ++ (freshId, ev) :: post) =
      dispatchRun ehrWin handle handlers pre ++
        (⟨some ev.data, none, some e⟩ : DispatchResult) ::
          dispatchRun ehrWin handle handlers post := by
  have hmain : handleIncomingMessage ehrWin handle handlers freshId ev =
      ⟨some ev.data, none, some e⟩ := by
    simp only [handleIncomingMessage]
    rw [if_neg hsrc]
    simp [htruthy, hobj, hhandle, htype, hlookup, hthrow]
  refine ⟨hmain, ?_⟩
  simp [dispatchRun, hmain]

/-- Witness for C8: one throwing `form.persist` handler, followed by a
second inbound message that is still dispatched (and filtered) normally. -/
theorem handler_error_contained_witness :
    handleIncomingMessage 1 "h1"
      [("form.persist", fun _ => HandlerResult.thrown "boom")] "f4"
      ⟨2, JSValue.obj [("messagingHandle", JSValue.str "h1"),
        ("messageId", JSValue.str "m2"),
        ("messageType", JSValue.str "form.persist"),
        ("payload", JSValue.obj [])]⟩ =
      ⟨some (JSValue.obj [("messagingHandle", JSValue.str "h1"),
        ("messageId", JSValue.str "m2"),
        ("messageType", JSValue.str "form.persist"),
        ("payload", JSValue.obj [])]), none, some "boom"⟩ ∧
    dispatchRun 1 "h1"
      [("form.persist", fun _ => HandlerResult.thrown "boom")]
      ([] ++ ("f4",
        ⟨2, JSValue.obj [("messagingHandle", JSValue.str "h1"),
          ("messageId", JSValue.str "m2"),
          ("messageType", JSValue.str "form.persist"),
          ("payload", JSValue.obj [])]⟩) :: [("f5", ⟨2, JSValue.null⟩)]) =
      dispatchRun 1 "h1"
        [("form.persist", fun _ => HandlerResult.thrown "boom")] [] ++
        (⟨some (JSValue.obj [("messagingHandle", JSValue.str "h1"),
          ("messageId", JSValue.str "m2"),
          ("messageType", JSValue.str "form.persist"),
          ("payload", JSValue.obj [])]), none, some "boom"⟩ : DispatchResult) ::
          dispatchRun 1 "h1"
            [("form.persist", fun _ => HandlerResult.thrown "boom")]
            [("f5", ⟨2, JSValue.null⟩)] :=
  handler_error_contained 1 "h1"
    [("form.persist", fun _ => HandlerResult.thrown "boom")] "f4"
    ⟨2, JSValue.obj [("messagingHandle", JSValue.str "h1"),
      ("messageId", JSValue.str "m2"),
      ("messageType", JSValue.str "form.persist"),
      ("payload", JSValue.obj [])]⟩
    (fun _ => HandlerResult.thrown "boom") "boom"
    (by decide) rfl rfl rfl rfl rfl rfl [] [("f5", ⟨2, JSValue.null⟩)]

/-- C6 (code evaluated at the failing input): `close()` posts a
fire-and-forget `ui.close` request, clears the status listeners and the
handler table (handler count drops to 0) and leaves `_status` untouched,
but the construction-time inbound listener — the bound closure with
identity 10 — is still registered afterwards: `cleanup` passed the
unbound method (identity 11) to `removeEventListener`, which removed
nothing. -/
theorem close_listener_survives :
    (close 0 "h1" "c1" 12 11
      ⟨Status.connected, [1, 2],
        [("form.persist", fun _ => HandlerResult.ret (JSValue.obj []))],
        setupMessageListener 0 10 []⟩).state.status = Status.connected ∧
    (close 0 "h1" "c1" 12 11
      ⟨Status.connected, [1, 2],
        [("form.persist", fun _ => HandlerResult.ret (JSValue.obj []))],
        setupMessageListener 0 10 []⟩).state.statusListeners = [] ∧
    getHandlerCount (close 0 "h1" "c1" 12 11
      ⟨Status.connected, [1, 2],
        [("form.persist", fun _ => HandlerResult.ret (JSValue.obj []))],
        setupMessageListener 0 10 []⟩).state.handlers = 0 ∧
    (close 0 "h1" "c1" 12 11
      ⟨Status.connected, [1, 2],
        [("form.persist", fun _ => HandlerResult.ret (JSValue.obj []))],
        setupMessageListener 0 10 []⟩).postedCloseMsg.getField "messageType" =
      JSValue.str "ui.close" ∧
    isRegistered (close 0 "h1" "c1" 12 11
      ⟨Status.connected, [1, 2],
        [("form.persist", fun _ => HandlerResult.ret (JSValue.obj []))],
        setupMessageListener 0 10 []⟩).state.world 0 10 = true :=
  ⟨rfl, rfl, rfl, rfl, rfl⟩

/-- C10: `sendMessage` has no connection-readiness precondition — its
synchronous behaviour is identical for every value of the `_status`
field, and it always builds the stamped request and posts it to the
configured peer endpoint. -/
theorem sendMessage_ignores_status (c : Connector) (s : Status)
    (localWin : EndpointId) (messageId : String) (rhId : ListenerId)
    (messageType : String) (payload : JSValue) (w : ListenerWorld) :
    sendMessageInit { c with status := s } localWin messageId rhId messageType
        payload w =
      sendMessageInit c localWin messageId rhId messageType payload w ∧
    (sendMessageInit c localWin messageId rhId messageType payload w).postedTo =
      c.ehrWin ∧
    (sendMessageInit c localWin messageId rhId messageType payload w).request =
      JSValue.obj [("messageType", JSValue.str messageType),
        ("payload", payload),
        ("messageId", JSValue.str messageId),
        ("messagingHandle", JSValue.str c.handle)] :=
  ⟨rfl, rfl, rfl⟩
